import Mathlib

/-!
Shallow embedding of the ai-journal backend core: the credential store
(src/backend/database/auth.py) and the LLM client retry layer
(src/backend/llm_client.py), with theorems checking the specification's
claims against it.
-/

namespace AIJournal

/-! ### Python string primitives used by the source -/

/-- Python `str.isdigit()` restricted to the ASCII strings the module handles:
true iff the string is non-empty and every character is a digit. -/
def pyIsdigit (s : String) : Bool := !s.isEmpty && s.toList.all Char.isDigit

/-- Python `str.isalnum()` on a character list (the source applies it to the
username after removing separators): non-empty and all alphanumeric. -/
def pyIsalnumL (cs : List Char) : Bool := !cs.isEmpty && cs.all Char.isAlphanum

/-- `username.replace('_', '').replace('-', '')` from `create_user`:
removes every underscore and hyphen. -/
def stripSeparators (u : String) : List Char :=
  u.toList.filter (fun c => !(c == '_' || c == '-'))

/-! ### Hashing model

`werkzeug.security.generate_password_hash` / `check_password_hash` are an
external library. We model the salted PBKDF2 hash abstractly by the contract
the source relies on: checking a generated hash against a candidate PIN
decides equality with the hashed PIN, and the stored value is a hash object,
never the raw PIN string. -/

structure PinHash where
  hashedPin : String
deriving DecidableEq, Repr

def generate_password_hash (pin : String) : PinHash := ⟨pin⟩

def check_password_hash (h : PinHash) (pin : String) : Bool := h.hashedPin == pin

/-! ### Data model: the users table -/

/-- One row of the `users` table: surrogate integer key, unique username,
PIN hash, creation timestamp. -/
structure UserRow where
  id : Nat
  username : String
  pin_hash : PinHash
  created_at : String
deriving DecidableEq, Repr

/-- The store: rows in insertion order plus the next auto-increment id
(SQLite AUTOINCREMENT / PostgreSQL SERIAL both hand out fresh increasing ids). -/
structure Store where
  nextId : Nat
  users : List UserRow
deriving DecidableEq, Repr

def emptyStore : Store := ⟨1, []⟩

/-- The `User` model returned by `verify_user` / `get_user_by_id`
(Flask-Login identity). The three flags are set to constants by `__init__`. -/
structure User where
  id : Nat
  username : String
  is_authenticated : Bool := true
  is_active : Bool := true
  is_anonymous : Bool := false
deriving DecidableEq, Repr

/-! ### create_user -/

/-- Outcome of one `create_user` call.
`created` is the returned dict `{id, username, created_at}`;
`alreadyExists` is the Python `return None` taken on a uniqueness conflict;
`invalid msg` is a raised `ValueError(msg)` (validation failure). -/
inductive CreateResult
  | created (id : Nat) (username : String) (created_at : String)
  | alreadyExists
  | invalid (msg : String)
deriving DecidableEq, Repr

def CreateResult.isCreated : CreateResult → Bool
  | .created _ _ _ => true
  | _ => false

/-- True exactly on the raised-`ValueError` outcomes. -/
def CreateResult.isInvalid : CreateResult → Bool
  | .invalid _ => true
  | _ => false

def pinErrMsg : String := "PIN must be 4-6 digits"

def usernameCharsErrMsg : String := "Username must be alphanumeric (with optional _ or -)"

def usernameLenErrMsg : String := "Username must be 3-20 characters"

/-- Result of `create_user` together with the store it leaves behind and
whether a database connection was opened during the call. -/
structure CreateOutcome where
  res : CreateResult
  store : Store
  connOpened : Bool
deriving DecidableEq, Repr

/-- `create_user(username, pin)` (auth.py lines 109-166). Validation happens
before `_get_connection()`; the INSERT hits the UNIQUE constraint exactly when
a row with this username exists, in which case the transaction is rolled back
and, the backend error message containing "unique"/"duplicate", `None` is
returned. `now` stands for `datetime.utcnow().isoformat()`. -/
def create_user (username pin now : String) (s : Store) : CreateOutcome :=
  if ¬ pyIsdigit pin ∨ pin.length < 4 ∨ 6 < pin.length then
    ⟨.invalid pinErrMsg, s, false⟩
  else if ¬ pyIsalnumL (stripSeparators username) then
    ⟨.invalid usernameCharsErrMsg, s, false⟩
  else if username.length < 3 ∨ 20 < username.length then
    ⟨.invalid usernameLenErrMsg, s, false⟩
  else if s.users.any (fun r => r.username == username) then
    ⟨.alreadyExists, s, true⟩
  else
    ⟨.created s.nextId username now,
     ⟨s.nextId + 1,
      s.users ++ [⟨s.nextId, username, generate_password_hash pin, now⟩]⟩,
     true⟩

/-! ### verify_user and get_user_by_id -/

/-- `verify_user(username, pin)` (auth.py lines 169-194): select the row by
username, compare the PIN against the stored hash, return the identity only
on a match and `None` otherwise. -/
def verify_user (username pin : String) (s : Store) : Option User :=
  match s.users.find? (fun r => r.username == username) with
  | some row =>
      if check_password_hash row.pin_hash pin then
        some { id := row.id, username := row.username }
      else
        none
  | none => none

/-- `get_user_by_id(user_id)` (auth.py lines 197-221). -/
def get_user_by_id (user_id : Nat) (s : Store) : Option User :=
  (s.users.find? (fun r => r.id == user_id)).map
    (fun r => { id := r.id, username := r.username })

/-- A sample store holding the single user "alice" with PIN "1234". -/
def seededStore : Store := (create_user "alice" "1234" "t0" emptyStore).store

/-! ### Format predicates (for stating the claims) -/

/-- The PIN check of `create_user`: all-digit, length in [4,6]. -/
def pinFormatValid (p : String) : Bool :=
  pyIsdigit p && decide (4 ≤ p.length) && decide (p.length ≤ 6)

/-- The username check of `create_user`: stripped of separators it is
non-empty alphanumeric, and its length is in [3,20]. -/
def usernameFormatValid (u : String) : Bool :=
  pyIsalnumL (stripSeparators u) && decide (3 ≤ u.length) && decide (u.length ≤ 20)

/-- The spec claim's reading of the username format rules: 3-20 characters,
each a letter, digit, underscore or hyphen (nothing more). -/
def usernameClaimFormat (u : String) : Bool :=
  u.toList.all (fun c => c.isAlphanum || c == '_' || c == '-')
    && decide (3 ≤ u.length) && decide (u.length ≤ 20)

/-! ### LLM client (src/backend/llm_client.py) -/

/-- Configuration state of an `OllamaClient` after `__init__`
(which right-strips trailing slashes from the base URL). -/
structure OllamaClient where
  base_url : String
  model : String
  timeout : Nat
  max_retries : Nat
  retry_delay : ℚ
deriving DecidableEq, Repr

/-- `base_url.rstrip('/')` from `OllamaClient.__init__`. -/
def rstripSlash (s : String) : String :=
  ⟨(s.toList.reverse.dropWhile (fun c => c == '/')).reverse⟩

def mkOllamaClient (base_url model : String) (timeout max_retries : Nat)
    (retry_delay : ℚ) : OllamaClient :=
  ⟨rstripSlash base_url, model, timeout, max_retries, retry_delay⟩

/-- The factory defaults (`get_llm_client` / `OllamaClient.__init__`). -/
def defaultClient : OllamaClient :=
  mkOllamaClient "http://localhost:11434" "phi3:mini" 60 3 1

/-- How one HTTP attempt against the endpoint can end, as distinguished by the
`except` arms of `_make_request`: a JSON body whose optional field is the
"response" text, `requests.exceptions.ConnectionError`, `Timeout`,
`HTTPError` with a status code, or any other exception. -/
inductive AttemptOutcome
  | success (response : Option String)
  | connectionError
  | timeoutError
  | httpError (status : Nat)
  | otherError (msg : String)
deriving DecidableEq, Repr

/-- Result of `_make_request`: the parsed JSON body on success,
a raised `ValueError` for a missing model (`modelMissing`), or a raised
`RuntimeError` after exhausting the attempts (`exhausted`), carrying the
configured attempt count and the rendered last error. -/
inductive RequestResult
  | ok (response : Option String)
  | modelMissing (msg : String)
  | exhausted (attempts : Nat) (lastError : String)
deriving DecidableEq, Repr

/-- Result of `_make_request` together with the sleeps performed (in order,
in seconds) and the number of HTTP attempts actually issued. -/
structure RequestTrace where
  res : RequestResult
  sleeps : List ℚ
  attempts : Nat
deriving DecidableEq, Repr

def connectionErrMsg (c : OllamaClient) : String :=
  "Cannot connect to Ollama at " ++ c.base_url ++ ". Is it running?"

def timeoutErrMsg (c : OllamaClient) : String :=
  "Request timed out after " ++ toString c.timeout ++ "s"

def httpStatusErrMsg (status : Nat) : String :=
  "HTTP error: " ++ toString status

def unexpectedErrMsg (m : String) : String :=
  "Unexpected error: " ++ m

def modelMissingMsg (c : OllamaClient) : String :=
  "Model \x27" ++ c.model ++ "\x27 not found. Run: ollama pull " ++ c.model

/-- Python renders `f"{last_error}"` with `last_error = None` as "None". -/
def renderLastError : Option String → String
  | none => "None"
  | some m => m

/-- The `for attempt in range(self.max_retries)` loop of `_make_request`.
`remaining` is the number of loop iterations left, `attempt` the current
index (`attempt + remaining = max_retries` at every call from
`make_request`), `lastError` and `sleeps` the accumulated state. The guard
`attempt + 1 < max_retries` is the source's `attempt < self.max_retries - 1`. -/
def requestLoop (c : OllamaClient) (endpoint : Nat → AttemptOutcome) :
    Nat → Nat → Option String → List ℚ → RequestTrace
  | 0, attempt, lastError, sleeps =>
      ⟨.exhausted c.max_retries (renderLastError lastError), sleeps, attempt⟩
  | remaining + 1, attempt, _, sleeps =>
      match endpoint attempt with
      | .success response => ⟨.ok response, sleeps, attempt + 1⟩
      | .connectionError =>
          requestLoop c endpoint remaining (attempt + 1)
            (some (connectionErrMsg c))
            (if attempt + 1 < c.max_retries then
              sleeps ++ [c.retry_delay * ((attempt : ℚ) + 1)]
            else sleeps)
      | .timeoutError =>
          requestLoop c endpoint remaining (attempt + 1)
            (some (timeoutErrMsg c))
            (if attempt + 1 < c.max_retries then sleeps ++ [c.retry_delay]
             else sleeps)
      | .httpError status =>
          if status == 404 then
            ⟨.modelMissing (modelMissingMsg c), sleeps, attempt + 1⟩
          else
            requestLoop c endpoint remaining (attempt + 1)
              (some (httpStatusErrMsg status))
              (if attempt + 1 < c.max_retries then sleeps ++ [c.retry_delay]
               else sleeps)
      | .otherError m =>
          requestLoop c endpoint remaining (attempt + 1)
            (some (unexpectedErrMsg m))
            (if attempt + 1 < c.max_retries then sleeps ++ [c.retry_delay]
             else sleeps)

/-- `_make_request` (llm_client.py lines 43-82), with the endpoint's behaviour
per attempt as an explicit parameter. -/
def make_request (c : OllamaClient) (endpoint : Nat → AttemptOutcome) :
    RequestTrace :=
  requestLoop c endpoint c.max_retries 0 none []

/-- The JSON payload `generate` posts to `/api/generate`. -/
structure Payload where
  model : String
  prompt : String
  stream : Bool
  temperature : ℚ
  num_predict : Nat
deriving DecidableEq, Repr

/-- The prompt construction of `generate` (llm_client.py lines 107-110):
`full_prompt = prompt; if system: full_prompt = f"{system}\n\n{prompt}"`.
Python truthiness makes both `None` and the empty string skip the branch. -/
def fullPrompt (system : Option String) (prompt : String) : String :=
  match system with
  | some s => if s.isEmpty then prompt else s ++ "\n\n" ++ prompt
  | none => prompt

/-- What one `generate` call did: the payload it sent and the request trace. -/
structure GenerateOutcome where
  payload : Payload
  trace : RequestTrace
deriving DecidableEq, Repr

/-- `generate` (llm_client.py lines 84-123). -/
def generate (c : OllamaClient) (endpoint : Nat → AttemptOutcome)
    (prompt : String) (system : Option String) (max_tokens : Nat)
    (temperature : ℚ) : GenerateOutcome :=
  let payload : Payload :=
    ⟨c.model, fullPrompt system prompt, false, temperature, max_tokens⟩
  ⟨payload, make_request c endpoint⟩

/-- The text `generate` returns on success:
`result.get("response", "").strip()`. -/
def generateText (tr : RequestTrace) : Option String :=
  match tr.res with
  | .ok response => some (response.getD "").trim
  | _ => none

/-- An endpoint that refuses every connection attempt. -/
def alwaysConnectionRefused : Nat → AttemptOutcome := fun _ => .connectionError

/-- An endpoint whose first (and every) response is HTTP 404. -/
def alwaysNotFound : Nat → AttemptOutcome := fun _ => .httpError 404

/-- The sleeps the retry loop performs from attempt index `a` with `r`
iterations left when every attempt raises a connection error: one sleep of
`retry_delay * (attempt + 1)` per iteration whose guard
`attempt + 1 < max_retries` holds. -/
def connSleeps (c : OllamaClient) : Nat → Nat → List ℚ
  | _, 0 => []
  | a, r + 1 =>
      (if a + 1 < c.max_retries then [c.retry_delay * ((a : ℚ) + 1)] else []) ++
        connSleeps c (a + 1) r

/-! ### Helper lemmas: credential store -/

theorem pinFormatValid_iff (p : String) :
    pinFormatValid p = true ↔
      (pyIsdigit p = true ∧ 4 ≤ p.length ∧ p.length ≤ 6) := by
  simp [pinFormatValid, and_assoc]

theorem usernameFormatValid_iff (u : String) :
    usernameFormatValid u = true ↔
      (pyIsalnumL (stripSeparators u) = true ∧ 3 ≤ u.length ∧ u.length ≤ 20) := by
  simp [usernameFormatValid, and_assoc]

/-- A `create_user` call with an invalid PIN raises `ValueError` at once:
the store is untouched and no connection was opened. -/
theorem create_user_invalid_pin (u p now : String) (s : Store)
    (hp : pinFormatValid p = false) :
    create_user u p now s = ⟨.invalid pinErrMsg, s, false⟩ := by
  have hp' : ¬ (pyIsdigit p = true ∧ 4 ≤ p.length ∧ p.length ≤ 6) := by
    rw [← pinFormatValid_iff, hp]; simp
  unfold create_user
  rw [if_pos]
  by_cases h1 : pyIsdigit p = true
  · rcases Nat.lt_or_ge p.length 4 with h2 | h2
    · exact Or.inr (Or.inl h2)
    · rcases Nat.lt_or_ge 6 p.length with h3 | h3
      · exact Or.inr (Or.inr h3)
      · exact absurd ⟨h1, h2, h3⟩ hp'
  · exact Or.inl h1

/-- A `create_user` call on which every validation passes and no row with the
username exists inserts exactly one row and returns the new record. -/
theorem create_user_of_valid (u p now : String) (s : Store)
    (hp : pinFormatValid p = true) (hu : usernameFormatValid u = true)
    (hfresh : s.users.any (fun r => r.username == u) = false) :
    create_user u p now s =
      ⟨.created s.nextId u now,
       ⟨s.nextId + 1, s.users ++ [⟨s.nextId, u, generate_password_hash p, now⟩]⟩,
       true⟩ := by
  obtain ⟨hp1, hp2, hp3⟩ := (pinFormatValid_iff p).mp hp
  obtain ⟨hu1, hu2, hu3⟩ := (usernameFormatValid_iff u).mp hu
  unfold create_user
  rw [if_neg, if_neg, if_neg, if_neg]
  · rw [hfresh]; simp
  · omega
  · rw [hu1]; simp
  · push_neg
    exact ⟨hp1, by omega, by omega⟩

/-- A `create_user` call on which every validation passes but a row with the
username already exists rolls back: `None` is returned, the store unchanged. -/
theorem create_user_already_exists (u p now : String) (s : Store)
    (hp : pinFormatValid p = true) (hu : usernameFormatValid u = true)
    (hdup : s.users.any (fun r => r.username == u) = true) :
    create_user u p now s = ⟨.alreadyExists, s, true⟩ := by
  obtain ⟨hp1, hp2, hp3⟩ := (pinFormatValid_iff p).mp hp
  obtain ⟨hu1, hu2, hu3⟩ := (usernameFormatValid_iff u).mp hu
  unfold create_user
  rw [if_neg, if_neg, if_neg, if_pos hdup]
  · omega
  · rw [hu1]; simp
  · push_neg
    exact ⟨hp1, by omega, by omega⟩

/-- A `create_user` call with a well-formed PIN but an ill-formed username
raises one of the two username `ValueError`s, before any storage operation. -/
theorem create_user_invalid_username (u p now : String) (s : Store)
    (hp : pinFormatValid p = true) (hu : usernameFormatValid u = false) :
    create_user u p now s = ⟨.invalid usernameCharsErrMsg, s, false⟩ ∨
    create_user u p now s = ⟨.invalid usernameLenErrMsg, s, false⟩ := by
  obtain ⟨hp1, hp2, hp3⟩ := (pinFormatValid_iff p).mp hp
  have hpcond : ¬ (¬ pyIsdigit p = true ∨ p.length < 4 ∨ 6 < p.length) := by
    push_neg; exact ⟨hp1, by omega, by omega⟩
  have hu' : ¬ (pyIsalnumL (stripSeparators u) = true ∧ 3 ≤ u.length ∧ u.length ≤ 20) := by
    rw [← usernameFormatValid_iff, hu]; simp
  unfold create_user
  rw [if_neg hpcond]
  by_cases ha : pyIsalnumL (stripSeparators u) = true
  · right
    rw [if_neg (not_not_intro ha), if_pos]
    rcases Nat.lt_or_ge u.length 3 with h | h
    · exact Or.inl h
    · rcases Nat.lt_or_ge 20 u.length with h2 | h2
      · exact Or.inr h2
      · exact absurd ⟨ha, h, h2⟩ hu'
  · left
    rw [if_pos ha]

/-- Inversion: if `create_user` returned a created record, both validations
passed and no row with the username was present. -/
theorem create_user_created_inv (u p now : String) (s : Store)
    (h : (create_user u p now s).res.isCreated = true) :
    pinFormatValid p = true ∧ usernameFormatValid u = true ∧
      s.users.any (fun r => r.username == u) = false := by
  by_cases hp : pinFormatValid p = true
  · by_cases hu : usernameFormatValid u = true
    · by_cases hd : (s.users.any fun r => r.username == u) = true
      · rw [create_user_already_exists u p now s hp hu hd] at h
        simp [CreateResult.isCreated] at h
      · exact ⟨hp, hu, by simpa using hd⟩
    · rcases create_user_invalid_username u p now s hp (by simpa using hu) with he | he <;>
        rw [he] at h <;> simp [CreateResult.isCreated] at h
  · rw [create_user_invalid_pin u p now s (by simpa using hp)] at h
    simp [CreateResult.isCreated] at h

/-- `verify_user` on a username no stored row carries returns `None`. -/
theorem verify_user_none_of_unknown (u p : String) (s : Store)
    (h : ∀ r ∈ s.users, r.username ≠ u) :
    verify_user u p s = none := by
  unfold verify_user
  rw [List.find?_eq_none.mpr]
  intro r hr
  simpa using h r hr

/-- `verify_user` on a stored username whose hash does not match the
presented PIN returns `None`. -/
theorem verify_user_none_of_wrong_pin (u p : String) (s : Store)
    (h : ∀ r ∈ s.users, r.username = u → check_password_hash r.pin_hash p = false) :
    verify_user u p s = none := by
  unfold verify_user
  cases hf : s.users.find? (fun r => r.username == u) with
  | none => rfl
  | some row =>
      have hmem := List.mem_of_find?_eq_some hf
      have hname : row.username = u := by simpa using List.find?_some hf
      simp [h row hmem hname]

/-- A username made of letters, digits, underscores and hyphens that contains
at least one letter or digit, with length in [3,20], passes the source's
username validation. -/
theorem usernameFormatValid_of_claim (u : String)
    (hc : usernameClaimFormat u = true)
    (hx : ∃ c ∈ u.toList, c.isAlphanum = true) :
    usernameFormatValid u = true := by
  simp only [usernameClaimFormat, Bool.and_eq_true, List.all_eq_true,
    decide_eq_true_eq] at hc
  obtain ⟨⟨hall, hlen1⟩, hlen2⟩ := hc
  rw [usernameFormatValid_iff]
  refine ⟨?_, hlen1, hlen2⟩
  obtain ⟨c0, hc0mem, hc0al⟩ := hx
  have hc0ne1 : (c0 == '_') = false := by
    have hne : c0 ≠ '_' := by
      intro hcc; rw [hcc] at hc0al; exact absurd hc0al (by decide)
    simpa using hne
  have hc0ne2 : (c0 == '-') = false := by
    have hne : c0 ≠ '-' := by
      intro hcc; rw [hcc] at hc0al; exact absurd hc0al (by decide)
    simpa using hne
  have hc0strip : c0 ∈ stripSeparators u := by
    unfold stripSeparators
    exact List.mem_filter.mpr ⟨hc0mem, by rw [hc0ne1, hc0ne2]; rfl⟩
  simp only [pyIsalnumL, Bool.and_eq_true, List.all_eq_true]
  constructor
  · cases hstrip : stripSeparators u with
    | nil => exact absurd (hstrip ▸ hc0strip) (List.not_mem_nil c0)
    | cons a t => rfl
  · intro c hcmem
    obtain ⟨hcin, hcpred⟩ := List.mem_filter.mp hcmem
    rcases (by simpa using hall c hcin :
        (c.isAlphanum = true ∨ c = '_') ∨ c = '-') with (h | h) | h
    · exact h
    · exfalso; rw [h] at hcpred; simp at hcpred
    · exfalso; rw [h] at hcpred; simp at hcpred

/-! ### Helper lemmas: retry loop -/

/-- Running the retry loop against an endpoint that refuses every connection:
it walks all remaining iterations, records one linearly growing sleep per
iteration whose guard holds, and raises the aggregated error. -/
theorem requestLoop_connFail (c : OllamaClient) (ep : Nat → AttemptOutcome)
    (hep : ∀ n, ep n = .connectionError) (r : Nat) :
    ∀ (a : Nat) (le : Option String) (sl : List ℚ),
      requestLoop c ep r a le sl =
        ⟨.exhausted c.max_retries
           (renderLastError (if r = 0 then le else some (connectionErrMsg c))),
         sl ++ connSleeps c a r, a + r⟩ := by
  induction r with
  | zero =>
      intro a le sl
      simp [requestLoop, connSleeps]
  | succ n ih =>
      intro a le sl
      have step : requestLoop c ep (n + 1) a le sl =
          requestLoop c ep n (a + 1) (some (connectionErrMsg c))
            (if a + 1 < c.max_retries then
              sl ++ [c.retry_delay * ((a : ℚ) + 1)]
            else sl) := by
        simp only [requestLoop, hep a]
      rw [step, ih (a + 1) (some (connectionErrMsg c)) _]
      congr 1
      · rw [ite_self, if_neg (by omega : ¬ (n + 1 = 0))]
      · rw [connSleeps]
        by_cases hg : a + 1 < c.max_retries
        · simp [hg, List.append_assoc]
        · simp [hg]
      · omega

/-- Closed form of the sleeps on an all-connection-failure run: starting at
attempt `a` with `r = max_retries - a` iterations left, the loop sleeps
`retry_delay * (a + n + 1)` for `n = 0, …, r - 2`. -/
theorem connSleeps_eq_map (c : OllamaClient) (r : Nat) :
    ∀ a : Nat, a + r = c.max_retries →
      connSleeps c a r =
        (List.range (r - 1)).map
          (fun n => c.retry_delay * (((a + n : Nat) : ℚ) + 1)) := by
  induction r with
  | zero => intro a _; simp [connSleeps]
  | succ n ih =>
      intro a ha
      rw [connSleeps]
      by_cases hg : a + 1 < c.max_retries
      · obtain ⟨j, hj⟩ : ∃ j, n = j + 1 := ⟨n - 1, by omega⟩
        subst hj
        rw [ih (a + 1) (by omega), if_pos hg]
        simp only [Nat.add_sub_cancel, List.singleton_append]
        rw [List.range_succ_eq_map, List.map_cons, List.map_map]
        have hfun : (fun n => c.retry_delay * (((a + 1 + n : Nat) : ℚ) + 1)) =
            ((fun n => c.retry_delay * (((a + n : Nat) : ℚ) + 1)) ∘ Nat.succ) := by
          funext i
          simp only [Function.comp_apply, Nat.succ_eq_add_one]
          rw [show a + 1 + i = a + (i + 1) from by omega]
        rw [hfun]
        norm_num
      · have hn : n = 0 := by omega
        subst hn
        simp [connSleeps, hg]

/-! ### Claim theorems -/

/-- C1 is false as stated: the username "___" meets the claim's format rules
(three characters, each from letters/digits/underscore/hyphen) and the PIN
"1234" is valid, yet `create_user` on a store without that username raises
the username `ValueError` instead of succeeding, and the subsequent
`verify_user` returns nothing. -/
theorem C1_counterexample :
    usernameClaimFormat "___" = true ∧
    pinFormatValid "1234" = true ∧
    emptyStore.users = [] ∧
    (create_user "___" "1234" "t0" emptyStore).res =
      .invalid usernameCharsErrMsg ∧
    verify_user "___" "1234" (create_user "___" "1234" "t0" emptyStore).store =
      none := by
  refine ⟨by decide, by decide, by decide, by decide, by decide⟩

/-- C1 (amended): for every username of 3-20 characters from
letters/digits/underscore/hyphen that contains at least one letter or digit,
and every 4-6 digit PIN, `create_user` on a store with no row for that
username returns the new record, and `verify_user` with the same pair on the
resulting store returns the identity carrying that record's id and
username. -/
theorem C1_create_then_verify_roundtrip (u p now : String) (s : Store)
    (hclaim : usernameClaimFormat u = true)
    (halnum : ∃ c ∈ u.toList, c.isAlphanum = true)
    (hp : pinFormatValid p = true)
    (hfresh : ∀ r ∈ s.users, r.username ≠ u) :
    (create_user u p now s).res = .created s.nextId u now ∧
    verify_user u p (create_user u p now s).store =
      some { id := s.nextId, username := u } := by
  have hu := usernameFormatValid_of_claim u hclaim halnum
  have hfresh2 : s.users.any (fun r => r.username == u) = false := by
    have hno : ¬ ((s.users.any fun r => r.username == u) = true) := by
      intro hx
      obtain ⟨r, hrmem, hru⟩ := List.any_eq_true.mp hx
      exact hfresh r hrmem (by simpa using hru)
    simpa using hno
  rw [create_user_of_valid u p now s hp hu hfresh2]
  refine ⟨rfl, ?_⟩
  unfold verify_user
  rw [List.find?_append,
    List.find?_eq_none.mpr (fun r hr => by simpa using hfresh r hr)]
  simp [check_password_hash, generate_password_hash]

theorem C1_roundtrip_witness :
    usernameClaimFormat "alice_1" = true ∧
    pinFormatValid "4242" = true ∧
    ((create_user "alice_1" "4242" "t0" emptyStore).res =
        .created emptyStore.nextId "alice_1" "t0" ∧
      verify_user "alice_1" "4242"
          (create_user "alice_1" "4242" "t0" emptyStore).store =
        some { id := emptyStore.nextId, username := "alice_1" }) :=
  ⟨by decide, by decide,
    C1_create_then_verify_roundtrip "alice_1" "4242" "t0" emptyStore
      (by decide) ⟨'a', by decide, by decide⟩ (by decide) (by decide)⟩

/-- C2 is false as stated: after a successful `create_user("alice","1234")`,
a second call with the same username and PIN "abc" raises the PIN
`ValueError` before the uniqueness check is ever reached, rather than
returning the AlreadyExists outcome. -/
theorem C2_counterexample :
    (create_user "alice" "1234" "t0" emptyStore).res.isCreated = true ∧
    (create_user "alice" "abc" "t1"
        (create_user "alice" "1234" "t0" emptyStore).store).res =
      .invalid pinErrMsg ∧
    (create_user "alice" "abc" "t1"
        (create_user "alice" "1234" "t0" emptyStore).store).res ≠
      CreateResult.alreadyExists := by
  refine ⟨by decide, by decide, by decide⟩

/-- C2 (amended): after a successful `create_user` for a username, a second
`create_user` with the same username and any PIN that passes format
validation returns the distinguished AlreadyExists outcome (`None`, not an
error), leaves the store unchanged, and the store holds exactly one record
for that username. -/
theorem C2_duplicate_username (u p1 p2 now1 now2 : String) (s : Store)
    (h1 : (create_user u p1 now1 s).res.isCreated = true)
    (hp2 : pinFormatValid p2 = true) :
    (create_user u p2 now2 (create_user u p1 now1 s).store).res =
        CreateResult.alreadyExists ∧
    (create_user u p2 now2 (create_user u p1 now1 s).store).store =
        (create_user u p1 now1 s).store ∧
    (((create_user u p1 now1 s).store).users.filter
        (fun r => r.username == u)).length = 1 := by
  obtain ⟨hp1, hu, hfresh⟩ := create_user_created_inv u p1 now1 s h1
  rw [create_user_of_valid u p1 now1 s hp1 hu hfresh]
  have hdup : ((s.users ++
      [(⟨s.nextId, u, generate_password_hash p1, now1⟩ : UserRow)]).any
        (fun r => r.username == u)) = true := by
    rw [List.any_append]
    simp
  rw [create_user_already_exists u p2 now2 _ hp2 hu hdup]
  refine ⟨rfl, rfl, ?_⟩
  show ((s.users ++
      [(⟨s.nextId, u, generate_password_hash p1, now1⟩ : UserRow)]).filter
        (fun r => r.username == u)).length = 1
  rw [List.filter_append]
  have hnil : s.users.filter (fun r => r.username == u) = [] := by
    have hno : ¬ ((s.users.any fun r => r.username == u) = true) := by
      rw [hfresh]; simp
    rw [List.filter_eq_nil_iff]
    intro r hr hpred
    exact hno (List.any_eq_true.mpr ⟨r, hr, hpred⟩)
  rw [hnil]
  simp

theorem C2_duplicate_witness :
    (create_user "alice" "1234" "t0" emptyStore).res.isCreated = true ∧
    pinFormatValid "5678" = true ∧
    ((create_user "alice" "5678" "t1"
        (create_user "alice" "1234" "t0" emptyStore).store).res =
      CreateResult.alreadyExists ∧
    (create_user "alice" "5678" "t1"
        (create_user "alice" "1234" "t0" emptyStore).store).store =
      (create_user "alice" "1234" "t0" emptyStore).store ∧
    (((create_user "alice" "1234" "t0" emptyStore).store).users.filter
        (fun r => r.username == "alice")).length = 1) :=
  ⟨by decide, by decide,
    C2_duplicate_username "alice" "1234" "5678" "t0" "t1" emptyStore
      (by decide) (by decide)⟩

/-- C3: `verify_user` returns an identity only when a stored row carries the
username and the PIN matches its hash; on an unknown username and on a known
username with a wrong PIN it returns the same `None` value, so the two
failures are indistinguishable to the caller. -/
theorem C3_verify_indistinguishable (s : Store) (u1 p1 u2 p2 : String)
    (hunknown : ∀ r ∈ s.users, r.username ≠ u1)
    (_hknown : ∃ r ∈ s.users, r.username = u2)
    (hwrong : ∀ r ∈ s.users, r.username = u2 →
        check_password_hash r.pin_hash p2 = false) :
    verify_user u1 p1 s = none ∧
    verify_user u2 p2 s = none ∧
    verify_user u1 p1 s = verify_user u2 p2 s ∧
    (∀ (u p : String) (usr : User), verify_user u p s = some usr →
      ∃ r ∈ s.users, r.username = u ∧
        check_password_hash r.pin_hash p = true ∧
        usr.id = r.id ∧ usr.username = r.username) := by
  have h1 := verify_user_none_of_unknown u1 p1 s hunknown
  have h2 := verify_user_none_of_wrong_pin u2 p2 s hwrong
  refine ⟨h1, h2, by rw [h1, h2], ?_⟩
  intro u p usr hsome
  unfold verify_user at hsome
  split at hsome
  · rename_i row hfind
    have hmem := List.mem_of_find?_eq_some hfind
    have hname : row.username = u := by simpa using List.find?_some hfind
    by_cases hchk : check_password_hash row.pin_hash p = true
    · rw [if_pos hchk] at hsome
      have husr : usr = { id := row.id, username := row.username } :=
        (Option.some.inj hsome).symm
      exact ⟨row, hmem, hname, hchk, by rw [husr], by rw [husr]⟩
    · rw [if_neg hchk] at hsome
      exact absurd hsome (by simp)
  · exact absurd hsome (by simp)

theorem C3_indistinguishable_witness :
    verify_user "bob" "1234"
        (create_user "alice" "1234" "t0" emptyStore).store = none ∧
    verify_user "alice" "9999"
        (create_user "alice" "1234" "t0" emptyStore).store = none ∧
    verify_user "bob" "1234"
        (create_user "alice" "1234" "t0" emptyStore).store =
      verify_user "alice" "9999"
        (create_user "alice" "1234" "t0" emptyStore).store :=
  have h := C3_verify_indistinguishable
    (create_user "alice" "1234" "t0" emptyStore).store
    "bob" "1234" "alice" "9999" (by decide) (by decide) (by decide)
  ⟨h.1, h.2.1, h.2.2.1⟩

/-- C4: against an endpoint that refuses every connection, `Generate` makes
exactly `max_retries` attempts (the spec counts attempts as "retries"),
sleeps before the n-th re-attempt for `retry_delay * n` seconds
(n = 1, …, max_retries - 1, linearly increasing), and then raises the single
aggregated `RuntimeError` carrying the attempt count and the last observed
connection-failure reason. -/
theorem C4_connection_exhaustion (c : OllamaClient)
    (endpoint : Nat → AttemptOutcome) (prompt : String)
    (system : Option String) (mt : Nat) (tp : ℚ)
    (hm : 1 ≤ c.max_retries)
    (hep : ∀ n, endpoint n = .connectionError) :
    (generate c endpoint prompt system mt tp).trace =
      ⟨.exhausted c.max_retries (connectionErrMsg c),
       (List.range (c.max_retries - 1)).map
         (fun n : Nat => c.retry_delay * ((n : ℚ) + 1)),
       c.max_retries⟩ := by
  have htr : (generate c endpoint prompt system mt tp).trace =
      make_request c endpoint := rfl
  rw [htr]
  unfold make_request
  rw [requestLoop_connFail c endpoint hep c.max_retries 0 none []]
  rw [if_neg (by omega : ¬ (c.max_retries = 0)),
    connSleeps_eq_map c c.max_retries 0 (by omega)]
  have hfun : (fun n => c.retry_delay * (((0 + n : Nat) : ℚ) + 1)) =
      (fun n : Nat => c.retry_delay * ((n : ℚ) + 1)) := by
    funext i
    norm_num
  rw [hfun]
  simp only [renderLastError, List.nil_append, Nat.zero_add]

theorem C4_connection_exhaustion_witness :
    1 ≤ defaultClient.max_retries ∧
    (generate defaultClient alwaysConnectionRefused "Say hi." none 500
        (7 / 10)).trace =
      ⟨.exhausted defaultClient.max_retries (connectionErrMsg defaultClient),
       (List.range (defaultClient.max_retries - 1)).map
         (fun n : Nat => defaultClient.retry_delay * ((n : ℚ) + 1)),
       defaultClient.max_retries⟩ :=
  ⟨by decide, C4_connection_exhaustion defaultClient alwaysConnectionRefused
    "Say hi." none 500 (7 / 10) (by decide) (fun _ => rfl)⟩

/-- C5: if the endpoint's first response is HTTP 404 ("model not found"),
`Generate` raises the `ValueError` naming the configured model at once:
one single attempt, no retry, no backoff sleep. -/
theorem C5_model_missing_immediate (c : OllamaClient)
    (endpoint : Nat → AttemptOutcome) (prompt : String)
    (system : Option String) (mt : Nat) (tp : ℚ)
    (hm : 1 ≤ c.max_retries)
    (h0 : endpoint 0 = .httpError 404) :
    (generate c endpoint prompt system mt tp).trace =
      ⟨.modelMissing (modelMissingMsg c), [], 1⟩ := by
  have htr : (generate c endpoint prompt system mt tp).trace =
      make_request c endpoint := rfl
  rw [htr]
  unfold make_request
  obtain ⟨k, hk⟩ : ∃ k, c.max_retries = k + 1 := ⟨c.max_retries - 1, by omega⟩
  rw [hk]
  simp [requestLoop, h0]

theorem C5_model_missing_witness :
    1 ≤ defaultClient.max_retries ∧
    (generate defaultClient alwaysNotFound "Say hi." none 500 (7 / 10)).trace =
      ⟨.modelMissing (modelMissingMsg defaultClient), [], 1⟩ :=
  ⟨by decide, C5_model_missing_immediate defaultClient alwaysNotFound
    "Say hi." none 500 (7 / 10) (by decide) rfl⟩

/-- C6 is false as stated: a validation failure of `create_user` is raised
as a `ValueError` (the `CreateResult.invalid` outcome of the model), not
returned as an ordinary value — exactly what the repository's own tests
(`test_create_user_invalid_pin`) and the register route's
`except ValueError` handler expect. -/
theorem C6_counterexample :
    (create_user "alice" "123" "t0" emptyStore).res = .invalid pinErrMsg ∧
    (create_user "alice" "123" "t0" emptyStore).res ≠
      CreateResult.alreadyExists ∧
    (create_user "alice" "123" "t0" emptyStore).res.isCreated = false := by
  refine ⟨by decide, by decide, by decide⟩

/-- C6 (amended): every validation failure of `create_user` — an invalid PIN
(`InvalidPin`, raised first) as well as an invalid username
(`InvalidUsername`, either of its two messages) — is raised as a
`ValueError` exception, while the "not found" outcomes of `verify_user`
and `get_user_by_id` are ordinary `None` return values, never exceptions. -/
theorem C6_propagation_policy (u p now : String) (s : Store) (i : Nat)
    (hbad : ¬ (pinFormatValid p = true ∧ usernameFormatValid u = true))
    (hnou : ∀ r ∈ s.users, r.username ≠ u)
    (hnoid : ∀ r ∈ s.users, r.id ≠ i) :
    (create_user u p now s).res.isInvalid = true ∧
    (pinFormatValid p = false →
      (create_user u p now s).res = .invalid pinErrMsg) ∧
    (pinFormatValid p = true → usernameFormatValid u = false →
      ((create_user u p now s).res = .invalid usernameCharsErrMsg ∨
       (create_user u p now s).res = .invalid usernameLenErrMsg)) ∧
    verify_user u p s = none ∧
    get_user_by_id i s = none := by
  refine ⟨?_, ?_, ?_, verify_user_none_of_unknown u p s hnou, ?_⟩
  · by_cases hp : pinFormatValid p = true
    · have hu : usernameFormatValid u = false := by
        have hnu : ¬ (usernameFormatValid u = true) := fun h => hbad ⟨hp, h⟩
        simpa using hnu
      rcases create_user_invalid_username u p now s hp hu with he | he <;>
        rw [he] <;> rfl
    · rw [create_user_invalid_pin u p now s (by simpa using hp)]
      rfl
  · intro hpf
    rw [create_user_invalid_pin u p now s hpf]
  · intro hp hu
    rcases create_user_invalid_username u p now s hp hu with he | he
    · exact Or.inl (by rw [he])
    · exact Or.inr (by rw [he])
  · unfold get_user_by_id
    rw [List.find?_eq_none.mpr (fun r hr => by simpa using hnoid r hr)]
    rfl

theorem C6_propagation_witness :
    pinFormatValid "12" = false ∧
    (create_user "ghost" "12" "t1" seededStore).res.isInvalid = true ∧
    (create_user "ghost" "12" "t1" seededStore).res = .invalid pinErrMsg ∧
    pinFormatValid "1234" = true ∧
    usernameFormatValid "ab" = false ∧
    (create_user "ab" "1234" "t1" seededStore).res.isInvalid = true ∧
    ((create_user "ab" "1234" "t1" seededStore).res =
        .invalid usernameCharsErrMsg ∨
      (create_user "ab" "1234" "t1" seededStore).res =
        .invalid usernameLenErrMsg) ∧
    verify_user "ghost" "12" seededStore = none ∧
    get_user_by_id 99 seededStore = none :=
  have h1 := C6_propagation_policy "ghost" "12" "t1" seededStore 99
    (by decide) (by decide) (by decide)
  have h2 := C6_propagation_policy "ab" "1234" "t1" seededStore 99
    (by decide) (by decide) (by decide)
  ⟨by decide, h1.1, h1.2.1 (by decide), by decide, by decide, h2.1,
    h2.2.2.1 (by decide) (by decide), h1.2.2.2.1, h1.2.2.2.2⟩

/-- C7: `create_user` raises the PIN `ValueError` exactly when the PIN is
not all-digit or has length outside [4,6]; in particular "123", "1234567"
and "abcd" fail with it, while "1234", "12345" and "123456" pass the PIN
check. -/
theorem C7_pin_validation :
    (∀ (u p now : String) (s : Store),
      (create_user u p now s).res = .invalid pinErrMsg ↔
        pinFormatValid p = false) ∧
    (create_user "usera" "123" "t0" emptyStore).res = .invalid pinErrMsg ∧
    (create_user "usera" "1234567" "t0" emptyStore).res =
      .invalid pinErrMsg ∧
    (create_user "usera" "abcd" "t0" emptyStore).res = .invalid pinErrMsg ∧
    (create_user "usera" "1234" "t0" emptyStore).res ≠ .invalid pinErrMsg ∧
    (create_user "usera" "12345" "t0" emptyStore).res ≠ .invalid pinErrMsg ∧
    (create_user "usera" "123456" "t0" emptyStore).res ≠
      .invalid pinErrMsg := by
  refine ⟨?_, by decide, by decide, by decide, by decide, by decide,
    by decide⟩
  intro u p now s
  constructor
  · intro h
    rcases Bool.eq_false_or_eq_true (pinFormatValid p) with hb | hb
    · exfalso
      by_cases hu : usernameFormatValid u = true
      · by_cases hd : (s.users.any fun r => r.username == u) = true
        · rw [create_user_already_exists u p now s hb hu hd] at h
          have h2 : CreateResult.alreadyExists =
              CreateResult.invalid pinErrMsg := h
          exact absurd h2 (by decide)
        · rw [create_user_of_valid u p now s hb hu (by simpa using hd)] at h
          have h2 : CreateResult.created s.nextId u now =
              CreateResult.invalid pinErrMsg := h
          exact CreateResult.noConfusion h2
      · rcases create_user_invalid_username u p now s hb
          (by simpa using hu) with he | he
        · rw [he] at h
          have h2 : CreateResult.invalid usernameCharsErrMsg =
              CreateResult.invalid pinErrMsg := h
          exact absurd h2 (by decide)
        · rw [he] at h
          have h2 : CreateResult.invalid usernameLenErrMsg =
              CreateResult.invalid pinErrMsg := h
          exact absurd h2 (by decide)
    · exact hb
  · intro hb
    rw [create_user_invalid_pin u p now s hb]

/-- C10: any input failing PIN or username validation makes `create_user`
raise before a store connection is opened: no storage operation happens and
the store is left untouched. -/
theorem C10_validation_before_connection (u p now : String) (s : Store)
    (hbad : ¬ (pinFormatValid p = true ∧ usernameFormatValid u = true)) :
    (create_user u p now s).res.isInvalid = true ∧
    (create_user u p now s).store = s ∧
    (create_user u p now s).connOpened = false := by
  by_cases hp : pinFormatValid p = true
  · have hu : usernameFormatValid u = false := by
      have hnu : ¬ (usernameFormatValid u = true) := fun h => hbad ⟨hp, h⟩
      simpa using hnu
    rcases create_user_invalid_username u p now s hp hu with he | he <;>
      rw [he] <;> exact ⟨rfl, rfl, rfl⟩
  · rw [create_user_invalid_pin u p now s (by simpa using hp)]
    exact ⟨rfl, rfl, rfl⟩

theorem C10_validation_witness :
    ¬ (pinFormatValid "123" = true ∧ usernameFormatValid "ab" = true) ∧
    ((create_user "ab" "123" "t0" emptyStore).res.isInvalid = true ∧
     (create_user "ab" "123" "t0" emptyStore).store = emptyStore ∧
     (create_user "ab" "123" "t0" emptyStore).connOpened = false) :=
  ⟨by decide,
    C10_validation_before_connection "ab" "123" "t0" emptyStore (by decide)⟩

/-- C8 is false as stated: the empty string is a present (non-absent) system
argument, yet `generate` sends the prompt unmodified instead of prepending
the empty system text and a blank line. -/
theorem C8_counterexample :
    (some "" : Option String) ≠ none ∧
    (generate defaultClient alwaysConnectionRefused "Say hi." (some "") 500
        (7 / 10)).payload.prompt = "Say hi." ∧
    ("Say hi." : String) ≠ "" ++ "\n\n" ++ "Say hi." := by
  refine ⟨by decide, rfl, by decide⟩

/-- C8 (amended): for every prompt and every present non-empty system text,
`generate` sends a request body whose prompt field is the system text, a
blank line, then the prompt; with system absent the prompt is sent
unmodified. In particular "Be terse." and "Say hi." combine to
"Be terse.\n\nSay hi.". -/
theorem C8_system_prepended (c : OllamaClient)
    (endpoint : Nat → AttemptOutcome) (prompt sys : String) (mt : Nat)
    (tp : ℚ) (hs : sys ≠ "") :
    (generate c endpoint prompt (some sys) mt tp).payload.prompt =
      sys ++ "\n\n" ++ prompt ∧
    (generate c endpoint prompt none mt tp).payload.prompt = prompt := by
  constructor
  · show fullPrompt (some sys) prompt = sys ++ "\n\n" ++ prompt
    have hse : sys.isEmpty = false := by
      have hne : ¬ (sys.isEmpty = true) := fun he =>
        hs ((String.isEmpty_iff sys).mp he)
      simpa using hne
    simp [fullPrompt, hse]
  · rfl

theorem C8_system_prepended_witness :
    ("Be terse." : String) ≠ "" ∧
    ((generate defaultClient alwaysConnectionRefused "Say hi."
        (some "Be terse.") 500 (7 / 10)).payload.prompt =
      "Be terse." ++ "\n\n" ++ "Say hi." ∧
    (generate defaultClient alwaysConnectionRefused "Say hi." none 500
        (7 / 10)).payload.prompt = "Say hi.") :=
  ⟨by decide, C8_system_prepended defaultClient alwaysConnectionRefused
    "Say hi." "Be terse." 500 (7 / 10) (by decide)⟩

/-- C9: passing the empty string as the system argument behaves exactly as
if the system argument were absent: the whole `generate` outcome coincides,
and the sent prompt field is the prompt unchanged. -/
theorem C9_empty_system_as_absent (c : OllamaClient)
    (endpoint : Nat → AttemptOutcome) (prompt : String) (mt : Nat)
    (tp : ℚ) :
    generate c endpoint prompt (some "") mt tp =
      generate c endpoint prompt none mt tp ∧
    (generate c endpoint prompt (some "") mt tp).payload.prompt = prompt := by
  exact ⟨rfl, rfl⟩

end AIJournal
